import Mathlib

/-!
Shallow embedding of the authentication core of the `nestjs-auth` repository:
`AuthService` (signup / login / signin / googleLogin / verifyUser, from
`src/auth/auth.service.ts`) and `UsersService.banUser` (from
`src/users/users.service.ts`), together with theorems checking the
specification's claims about credential hashing, the account-status login
gate, federated login, error uniformity, and ban semantics.

The persistent store (TypeORM repositories) is modelled as explicit state:
a list of user rows and a list of refresh-token rows.  The external `scrypt`
key-derivation function is a parameter (the code treats it as an opaque
cryptographic primitive); `randomBytes(8)` is modelled by passing the fresh
salt bytes as an argument; the database-generated id of a newly created row
is likewise an argument.  JavaScript `TypeError` crashes (e.g. calling
`.split` on `null`) are modelled by a dedicated `crash` outcome, distinct
from thrown Nest HTTP exceptions, which are modelled by an error value.
-/

set_option autoImplicit false

namespace NestAuth

/-- JavaScript truthiness of a nullable string column: `null`/`undefined`
and the empty string are falsy, every other string is truthy.  Conditions
such as `if (!user.password && user.googleId)` in `auth.service.ts` use
exactly this notion. -/
def truthy : Option String → Bool
  | none => false
  | some s => !(s == "")

/-- Account status enumeration (`UserStatus` in
`src/users/entities/user.entity.ts`); the four states named by the spec and
matched in `AuthService.login` and `UsersService.banUser`. -/
inductive UserStatus where
  | Active
  | Inactive
  | Blocked
  | Deleted
  deriving DecidableEq, Repr

/-- The user row, restricted to the columns the embedded operations read or
write: `id`, `email`, `password` (nullable stored hash `salt.hex`),
`googleId` (nullable), `provider` (nullable), `status`, `tokenVersion`. -/
structure User where
  id : String
  email : String
  password : Option String
  googleId : Option String
  provider : Option String
  status : UserStatus
  tokenVersion : Nat
  deriving DecidableEq, Repr

/-- A persisted refresh-token row, restricted to its identity and the id of
the owning user (`RefreshToken` entity; `banUser` deletes rows by owner). -/
structure RefreshTokenRec where
  id : String
  userId : String
  deriving DecidableEq, Repr

/-- The persistent store backing `UsersService`: the `User` repository and
the `RefreshToken` repository. -/
structure Store where
  users : List User
  refreshTokens : List RefreshTokenRec
  deriving DecidableEq, Repr

/-- The Nest HTTP exceptions thrown by the embedded code, plus the two
token-service errors the spec names (`TokenRevoked`,
`TokenVersionMismatch`) used by the spec-modelled token checks. -/
inductive AuthError where
  | NotFound (msg : String)
  | BadRequest (msg : String)
  | Forbidden (msg : String)
  | UnprocessableEntity (msg : String)
  | AccountInactive (msg : String)
  | TokenRevoked
  | TokenVersionMismatch
  deriving DecidableEq, Repr

/-- Result of an embedded operation: a returned value, a thrown Nest HTTP
exception, or an unhandled JavaScript `TypeError` (`crash`), e.g. calling
`.split('.')` on a `null` password. -/
inductive Outcome (α : Type) where
  | ok (value : α)
  | error (e : AuthError)
  | crash
  deriving DecidableEq, Repr

/-- A signed JWT as produced by `jwtService.sign({ sub, email })`.  The
signature itself is the opaque external library; the token is identified by
its payload. -/
structure Jwt where
  sub : String
  email : String
  deriving DecidableEq, Repr

/-- `jwtService.sign({ sub: user.id, email: user.email })`. -/
def jwtSign (sub email : String) : Jwt := ⟨sub, email⟩

/-- `UsersService.findByEmail`: `repo.findOneBy({ email })`. -/
def findByEmail (db : Store) (email : String) : Option User :=
  db.users.find? (fun u => u.email == email)

/-- `UsersService.findOneById`: `repo.findOneBy({ id })`. -/
def findOneById (db : Store) (id : String) : Option User :=
  db.users.find? (fun u => u.id == id)

/-- `UsersService.findByGoogleId`: `repo.findOneBy({ googleId })`; a row
matches only when its (nullable) `googleId` column equals the value. -/
def findByGoogleId (db : Store) (googleId : String) : Option User :=
  db.users.find? (fun u => u.googleId == some googleId)

/-- One hexadecimal digit, as produced by `Buffer.toString('hex')`
(lowercase).  Only arguments below 16 occur. -/
def hexDigit : Nat → Char
  | 0 => '0' | 1 => '1' | 2 => '2' | 3 => '3' | 4 => '4'
  | 5 => '5' | 6 => '6' | 7 => '7' | 8 => '8' | 9 => '9'
  | 10 => 'a' | 11 => 'b' | 12 => 'c' | 13 => 'd' | 14 => 'e'
  | _ => 'f'

/-- `Buffer.toString('hex')`: each byte becomes two lowercase hex digits. -/
def bytesToHex (bs : List Nat) : String :=
  String.mk ((bs.map (fun b => [hexDigit (b / 16), hexDigit (b % 16)])).flatten)

/-- The password-hashing steps of `AuthService.signup` (lines 45–52): the
salt is the hex encoding of the fresh random bytes (`randomBytes(8)`,
passed here as `saltBytes`), the derived key is `scrypt(password, salt, 32)`
hex-encoded (the `scrypt` parameter returns that hex string), and the
stored value is `salt + '.' + hash.toString('hex')`. -/
def hashPassword (scrypt : String → String → String) (saltBytes : List Nat)
    (password : String) : String :=
  let salt := bytesToHex saltBytes
  salt ++ "." ++ scrypt password salt

/-- JavaScript `string.split('.')` on the character list: the chunks between
occurrences of `'.'`; splitting the empty string gives `[""]`. -/
def splitCharsOnDot : List Char → List (List Char)
  | [] => [[]]
  | c :: cs =>
    if c = '.' then [] :: splitCharsOnDot cs
    else
      match splitCharsOnDot cs with
      | [] => [[c]]
      | r :: rs => (c :: r) :: rs

/-- JavaScript `stored.split('.')` as a list of strings. -/
def jsSplitDot (s : String) : List String :=
  (splitCharsOnDot s.data).map String.mk

/-- The verification comparison of `AuthService.signin` (lines 96–100):
`const [salt, storedHash] = stored.split('.')` followed by
`storedHash !== hash.toString('hex')` — true exactly when the second chunk
exists and equals the key re-derived from the candidate password and the
first chunk (JavaScript destructuring makes `storedHash` `undefined` when
there is no `'.'`, and `undefined` never equals a string). -/
def checkStored (scrypt : String → String → String) (stored password : String) : Bool :=
  let parts := jsSplitDot stored
  decide (parts[1]? = some (scrypt password (parts.headD "")))

/-- `AuthService.signin` (`auth.service.ts` lines 86–109), state-explicit.
Unknown email throws `NotFoundException('User not found')`; a falsy
`password` column together with a truthy `googleId` throws
`ForbiddenException('Please use Google to login')`; otherwise
`user.password.split('.')` runs — a JavaScript `TypeError` (crash) when the
column is `null` — and a failed comparison throws
`BadRequestException('Wrong email or password')`. -/
def signin (scrypt : String → String → String) (db : Store)
    (email password : String) : Outcome Jwt :=
  match findByEmail db email with
  | none => .error (.NotFound "User not found")
  | some user =>
    if !(truthy user.password) && truthy user.googleId then
      .error (.Forbidden "Please use Google to login")
    else
      match user.password with
      | none => .crash
      | some stored =>
        if checkStored scrypt stored password then
          .ok (jwtSign user.id user.email)
        else
          .error (.BadRequest "Wrong email or password")

/-- `AuthService.verifyUser` (`auth.service.ts` lines 143–164): a user whose
`provider` is `'google'` is rejected with an
`UnprocessableEntityException` before anything else; unknown email throws
`NotFoundException`; then the same split/compare as `signin`, with no guard
at all on a `null` password column (crash). -/
def verifyUser (scrypt : String → String → String) (db : Store)
    (email password : String) : Outcome User :=
  match findByEmail db email with
  | none => .error (.NotFound "Bu e-posta adresli kullanıcı bulunamadı.")
  | some user =>
    if user.provider = some "google" then
      .error (.UnprocessableEntity
        "Bu mail adresiyle daha önce farklı bir yöntemle kaydolmuşsunuz.")
    else
      match user.password with
      | none => .crash
      | some stored =>
        if checkStored scrypt stored password then
          .ok user
        else
          .error (.BadRequest "Wrong email or password")

/-- The user row created by `UsersService.create(email, result)` during
signup: password credentials only, no Google identity. -/
def signupUser (newId email stored : String) : User :=
  { id := newId, email := email, password := some stored, googleId := none,
    provider := none, status := .Active, tokenVersion := 0 }

/-- `AuthService.signup` (`auth.service.ts` lines 30–63), state-explicit.
`newId` is the database-generated id of the created row and `saltBytes` the
output of `randomBytes(8)`.  An existing user with a truthy `googleId`
throws `ForbiddenException`; any other existing user throws
`BadRequestException('email in use')`; otherwise the password is hashed
(`hashPassword`), the user is created, and a JWT is signed. -/
def signup (scrypt : String → String → String) (db : Store) (newId : String)
    (saltBytes : List Nat) (email password : String) : Outcome (Jwt × Store) :=
  match findByEmail db email with
  | some user =>
    if truthy user.googleId then
      .error (.Forbidden
        "This email is associated with a Google account. Please use Google to login.")
    else
      .error (.BadRequest "email in use")
  | none =>
    let result := hashPassword scrypt saltBytes password
    let createdUser := signupUser newId email result
    .ok (jwtSign createdUser.id createdUser.email,
      { db with users := db.users ++ [createdUser] })

/-- `AuthService.login` (`auth.service.ts` lines 65–84): deny with
`AccountInactiveException` when the status is `Inactive`, `Deleted` or
`Blocked`; otherwise issue the session (access token carrying the current
`tokenVersion`, plus a refresh token via `TokenService`, whose internals
are outside the provided sources and do not affect the gate). -/
def login (user : User) : Outcome Jwt :=
  if user.status = .Inactive ∨ user.status = .Deleted ∨ user.status = .Blocked then
    .error (.AccountInactive "Hesabınız aktif değil. Lütfen destekle iletişime geçin.")
  else
    .ok (jwtSign user.id user.email)

/-- The verified Google ID-token payload, as returned by
`ticket.getPayload()` after the external `client.verifyIdToken` call
(restricted to the fields `googleLogin` reads into the embedded model). -/
structure GooglePayload where
  sub : String
  email : String
  deriving DecidableEq, Repr

/-- The user row created by `UsersService.createFromGoogle` inside
`googleLogin`: federated-only — `googleId` and `provider: 'google'` set,
no `password` column. -/
def googleUserOf (newId : String) (payload : GooglePayload) : User :=
  { id := newId, email := payload.email, password := none,
    googleId := some payload.sub, provider := some "google",
    status := .Active, tokenVersion := 0 }

/-- `AuthService.googleLogin` (`auth.service.ts` lines 111–141),
state-explicit, taking the already-verified token payload (verification is
the external Google library) and the database-generated id `newId` used if
a row is created.  An existing user found by Google id is signed a JWT
directly; an unknown Google id causes `createFromGoogle` and a JWT for the
new row.  No status check and no email-conflict check occurs. -/
def googleLogin (db : Store) (newId : String) (payload : GooglePayload) :
    Outcome (Jwt × Store) :=
  match findByGoogleId db payload.sub with
  | some user => .ok (jwtSign user.id user.email, db)
  | none =>
    let user := googleUserOf newId payload
    .ok (jwtSign user.id user.email, { db with users := db.users ++ [user] })

/-- The mutation `banUser` applies to the retrieved user entity:
`user.status = UserStatus.Blocked; user.tokenVersion += 1`. -/
def bannedUser (user : User) : User :=
  { user with
    status := UserStatus.Blocked,
    tokenVersion := user.tokenVersion + 1 }

/-- `UsersService.banUser` (`src/users/users.service.ts` lines 276–294),
state-explicit: look the user up by id, throw `NotFoundException` if
absent (first component of the result), otherwise set the status to
`Blocked`, increment `tokenVersion`, save, and delete every refresh-token
row owned by the user. -/
def banUser (db : Store) (id : String) : Option AuthError × Store :=
  match findOneById db id with
  | none => (some (.NotFound "User not found"), db)
  | some user =>
    (none,
      { users := db.users.map (fun v => if v.id == id then bannedUser user else v),
        refreshTokens := db.refreshTokens.filter (fun rt => !(rt.userId == id)) })

/-- The access token issued by `TokenService.createAccessToken`: subject id,
email and a snapshot of the issuing user's `tokenVersion`.  Modelled from
the spec: `token.service.ts` is not among the provided sources; §3 of the
spec describes the access token as "a signed structure carrying subject id,
email, a snapshot of tokenVersion". -/
structure AccessTok where
  sub : String
  email : String
  tokenVersion : Nat
  deriving DecidableEq, Repr

/-- Modelled from the spec: access-token validation by `TokenService`
(`token.service.ts` is not among the provided sources).  Per spec §4.3,
after the signature and expiry checks, "a mandatory live lookup of the
subject's current tokenVersion; mismatch signals `TokenVersionMismatch`". -/
def verifyAccessToken (db : Store) (tok : AccessTok) : Outcome Unit :=
  match findOneById db tok.sub with
  | none => .error (.NotFound "User not found")
  | some u =>
    if tok.tokenVersion = u.tokenVersion then .ok ()
    else .error .TokenVersionMismatch

/-- Modelled from the spec: the stored-record lookup step of
`TokenService.refresh` (`token.service.ts` is not among the provided
sources).  Per spec §4.3, refreshing "fails with `TokenRevoked` if not
found or already revoked": a presented refresh token whose row is no
longer in the store is rejected with `TokenRevoked`. -/
def refreshLookup (db : Store) (rt : RefreshTokenRec) : Outcome Unit :=
  if rt ∈ db.refreshTokens then .ok () else .error .TokenRevoked

/-- A concrete key-derivation function used to instantiate the `scrypt`
parameter in witnesses: hex encoding of the code points of
`password ++ salt` (dot-free output, like real scrypt-hex). -/
def toyKdf (password salt : String) : String :=
  bytesToHex ((password ++ salt).data.map Char.toNat)

/-! Concrete rows and stores used by counterexamples and witnesses. -/

/-- A `Blocked` user with a Google identity and no password. -/
def uBlockedG : User :=
  { id := "u1", email := "g@x.com", password := none, googleId := some "g1",
    provider := some "google", status := .Blocked, tokenVersion := 0 }

/-- An `Active` user with password credentials (`pw1` hashed by `toyKdf`
with salt bytes `[1,2,3,4,5,6,7,8]`). -/
def uPw : User :=
  { id := "u3", email := "a@x.com",
    password := some (hashPassword toyKdf [1, 2, 3, 4, 5, 6, 7, 8] "pw1"),
    googleId := none, provider := none, status := .Active, tokenVersion := 0 }

/-- A user row with neither a password nor a Google identity. -/
def uNoCred : User :=
  { id := "u6", email := "n@x.com", password := none, googleId := none,
    provider := none, status := .Active, tokenVersion := 0 }

/-- Store holding only the blocked Google user. -/
def dbBlockedG : Store := { users := [uBlockedG], refreshTokens := [] }

/-- Store holding only the password user. -/
def dbPw : Store := { users := [uPw], refreshTokens := [] }

/-- Store holding only the credential-less user. -/
def dbNoCred : Store := { users := [uNoCred], refreshTokens := [] }

/-- The empty store. -/
def dbEmpty : Store := { users := [], refreshTokens := [] }

/-- An active user with two refresh tokens, for the ban scenarios. -/
def uBan : User :=
  { id := "u9", email := "b@x.com", password := some "s.h", googleId := none,
    provider := none, status := .Active, tokenVersion := 3 }

/-- Store holding `uBan`, one refresh token owned by `uBan` and one owned
by another user. -/
def dbBan : Store :=
  { users := [uBan],
    refreshTokens := [⟨"rt1", "u9"⟩, ⟨"rt2", "other"⟩] }

/-- An `Active` user with password credentials for the login-gate witness. -/
def uActive : User :=
  { id := "u7", email := "act@x.com", password := some "s.h", googleId := none,
    provider := none, status := .Active, tokenVersion := 0 }

/-- A Google payload whose subject matches `uBlockedG`. -/
def payloadBlocked : GooglePayload := { sub := "g1", email := "g@x.com" }

/-- A Google payload with a fresh subject but `uPw`'s email. -/
def payloadConflict : GooglePayload := { sub := "g9", email := "a@x.com" }

/-! Groundwork lemmas: strings, the JavaScript split, hex encoding, and
list lookups. -/

theorem string_data_append (s t : String) : (s ++ t).data = s.data ++ t.data := rfl

theorem string_mk_data (s : String) : String.mk s.data = s := rfl

theorem string_data_mk (l : List Char) : (String.mk l).data = l := rfl

theorem truthy_none : truthy none = false := rfl

theorem truthy_some (s : String) : truthy (some s) = !(s == "") := rfl

theorem splitCharsOnDot_ne_nil (l : List Char) : splitCharsOnDot l ≠ [] := by
  induction l with
  | nil => simp [splitCharsOnDot]
  | cons c cs ih =>
    simp only [splitCharsOnDot]
    split
    · simp
    · split
      · simp
      · simp

theorem splitCharsOnDot_of_no_dot (l : List Char) (h : ∀ c ∈ l, c ≠ '.') :
    splitCharsOnDot l = [l] := by
  induction l with
  | nil => rfl
  | cons c cs ih =>
    have hc : ¬(c = '.') := h c (by simp)
    have ih2 := ih (fun x hx => h x (by simp [hx]))
    simp [splitCharsOnDot, hc, ih2]

theorem splitCharsOnDot_append (l1 l2 : List Char) (h : ∀ c ∈ l1, c ≠ '.') :
    splitCharsOnDot (l1 ++ '.' :: l2) = l1 :: splitCharsOnDot l2 := by
  induction l1 with
  | nil => simp [splitCharsOnDot]
  | cons c cs ih =>
    have hc : ¬(c = '.') := h c (by simp)
    have ih2 := ih (fun x hx => h x (by simp [hx]))
    simp [splitCharsOnDot, hc, ih2]

theorem jsSplitDot_salt_hash (salt h : String) (hs : ∀ c ∈ salt.data, c ≠ '.')
    (hh : ∀ c ∈ h.data, c ≠ '.') :
    jsSplitDot (salt ++ "." ++ h) = [salt, h] := by
  have hdata : (salt ++ "." ++ h).data = salt.data ++ '.' :: h.data := by
    have hdot1 : ".".data = ['.'] := rfl
    rw [string_data_append, string_data_append, hdot1]
    simp
  unfold jsSplitDot
  rw [hdata, splitCharsOnDot_append _ _ hs, splitCharsOnDot_of_no_dot _ hh]
  simp [string_mk_data]

theorem hexDigit_ne_dot (n : Nat) : hexDigit n ≠ '.' := by
  unfold hexDigit
  split <;> decide

theorem hexDigit_inj {a b : Nat} (ha : a < 16) (hb : b < 16)
    (h : hexDigit a = hexDigit b) : a = b := by
  revert h
  interval_cases a <;> interval_cases b <;> decide

theorem bytesToHex_dotFree (bs : List Nat) : ∀ c ∈ (bytesToHex bs).data, c ≠ '.' := by
  induction bs with
  | nil => simp [bytesToHex]
  | cons b rest ih =>
    intro c hc
    simp only [bytesToHex, string_data_mk, List.map_cons, List.flatten_cons,
      List.cons_append, List.nil_append, List.mem_cons] at hc
    rcases hc with h | h | h
    · rw [h]; exact hexDigit_ne_dot _
    · rw [h]; exact hexDigit_ne_dot _
    · exact ih c h

theorem bytesToHex_inj : ∀ (b1 b2 : List Nat), b1.length = b2.length →
    (∀ b ∈ b1, b < 256) → (∀ b ∈ b2, b < 256) →
    bytesToHex b1 = bytesToHex b2 → b1 = b2 := by
  intro b1
  induction b1 with
  | nil =>
    intro b2 hlen _ _ _
    cases b2 with
    | nil => rfl
    | cons y ys => simp at hlen
  | cons x xs ih =>
    intro b2 hlen h1 h2 heq
    cases b2 with
    | nil => simp at hlen
    | cons y ys =>
      have hdata : hexDigit (x / 16) :: hexDigit (x % 16) ::
            ((xs.map (fun b => [hexDigit (b / 16), hexDigit (b % 16)])).flatten)
          = hexDigit (y / 16) :: hexDigit (y % 16) ::
            ((ys.map (fun b => [hexDigit (b / 16), hexDigit (b % 16)])).flatten) :=
        congrArg String.data heq
      injection hdata with hd1 hdata2
      injection hdata2 with hd2 htail
      have hx : x < 256 := h1 x (by simp)
      have hy : y < 256 := h2 y (by simp)
      have e1 : x / 16 = y / 16 :=
        hexDigit_inj (by omega) (by omega) hd1
      have e2 : x % 16 = y % 16 :=
        hexDigit_inj (by omega) (by omega) hd2
      have hxy : x = y := by omega
      have htl : xs = ys := by
        refine ih ys (by simpa using hlen) (fun b hb => h1 b (by simp [hb]))
          (fun b hb => h2 b (by simp [hb])) ?_
        exact congrArg String.mk htail
      rw [hxy, htl]

theorem bytesToHex_length (bs : List Nat) :
    (bytesToHex bs).length = 2 * bs.length := by
  induction bs with
  | nil => rfl
  | cons b rest ih =>
    simp only [bytesToHex, List.map_cons, List.flatten_cons, List.cons_append,
      List.nil_append, List.length_cons] at ih ⊢
    simp only [String.length] at ih ⊢
    simp only [List.length_cons]
    omega

theorem find?_append_of_none {α : Type} (p : α → Bool) {l1 : List α} (l2 : List α)
    (h : l1.find? p = none) : (l1 ++ l2).find? p = l2.find? p := by
  induction l1 with
  | nil => simp
  | cons a l ih =>
    simp only [List.find?, List.cons_append] at h ⊢
    cases hpa : p a with
    | true => simp [List.find?, hpa] at h
    | false =>
      simp only [List.find?, hpa] at h ⊢
      exact ih h

theorem find?_map_update (id : String) (banned : User)
    (hb : (banned.id == id) = true) :
    ∀ (users : List User) (u : User),
      users.find? (fun v => v.id == id) = some u →
      (users.map (fun v => if v.id == id then banned else v)).find?
        (fun v => v.id == id) = some banned := by
  intro users
  induction users with
  | nil => intro u h; simp [List.find?] at h
  | cons a l ih =>
    intro u h
    by_cases ha : (a.id == id) = true
    · simp [List.find?, ha, hb]
    · simp only [List.find?, ha, Bool.false_eq_true, ite_false] at h
      simp only [List.map_cons, List.find?, ha, Bool.false_eq_true, ite_false]
      exact ih u h

theorem checkStored_of_match (scrypt : String → String → String)
    (saltBytes : List Nat) (password : String)
    (hdot : ∀ p s : String, ∀ c ∈ (scrypt p s).data, c ≠ '.') :
    checkStored scrypt (hashPassword scrypt saltBytes password) password = true := by
  unfold checkStored hashPassword
  rw [jsSplitDot_salt_hash _ _ (bytesToHex_dotFree saltBytes)
    (hdot password (bytesToHex saltBytes))]
  simp

theorem checkStored_of_mismatch (scrypt : String → String → String)
    (saltBytes : List Nat) (password other : String)
    (hdot : ∀ p s : String, ∀ c ∈ (scrypt p s).data, c ≠ '.')
    (hne : scrypt other (bytesToHex saltBytes) ≠ scrypt password (bytesToHex saltBytes)) :
    checkStored scrypt (hashPassword scrypt saltBytes password) other = false := by
  unfold checkStored hashPassword
  rw [jsSplitDot_salt_hash _ _ (bytesToHex_dotFree saltBytes)
    (hdot password (bytesToHex saltBytes))]
  have hne2 : scrypt password (bytesToHex saltBytes) ≠ scrypt other (bytesToHex saltBytes) :=
    fun hcontra => hne hcontra.symm
  simp [hne2]

/-! Claim theorems. -/

/-- Claim C10: for every user id not present in the store, `banUser` fails
with the user-not-found error and returns the store unchanged — no user's
status or `tokenVersion` is modified and no refresh token is deleted,
because the error is raised before any mutation. -/
theorem banUser_not_found (db : Store) (id : String)
    (h : findOneById db id = none) :
    banUser db id = (some (.NotFound "User not found"), db) := by
  unfold banUser
  rw [h]

/-- Witness for C10: `banUser` on the empty store. -/
theorem banUser_not_found_witness :
    banUser dbEmpty "u1" = (some (.NotFound "User not found"), dbEmpty) :=
  banUser_not_found dbEmpty "u1" rfl

/-- Claim C3: for every existing user id, `banUser` succeeds, sets the
user's status to `Blocked`, increments the user's `tokenVersion` by exactly
one, and deletes every refresh token owned by that user; consequently (via
the spec-modelled token checks) every access token carrying the old
`tokenVersion` snapshot fails validation with `TokenVersionMismatch`, and
every refresh token owned by the user fails the refresh lookup with
`TokenRevoked`. -/
theorem banUser_bans (db : Store) (id : String) (u : User)
    (hfind : findOneById db id = some u) :
    (banUser db id).1 = none ∧
    findOneById (banUser db id).2 id = some (bannedUser u) ∧
    (bannedUser u).status = UserStatus.Blocked ∧
    (bannedUser u).tokenVersion = u.tokenVersion + 1 ∧
    (∀ rt ∈ (banUser db id).2.refreshTokens, rt.userId ≠ id) ∧
    (∀ tok : AccessTok, tok.sub = id → tok.tokenVersion = u.tokenVersion →
      verifyAccessToken (banUser db id).2 tok = .error .TokenVersionMismatch) ∧
    (∀ rt : RefreshTokenRec, rt.userId = id →
      refreshLookup (banUser db id).2 rt = .error .TokenRevoked) := by
  have hfind2 : List.find? (fun v : User => v.id == id) db.users = some u := hfind
  have hpu : ((fun v : User => v.id == id) u) = true :=
    List.find?_some (p := fun v : User => v.id == id) hfind2
  have hb : ((bannedUser u).id == id) = true := hpu
  have hban : banUser db id =
      (none,
        { users := db.users.map (fun v => if v.id == id then bannedUser u else v),
          refreshTokens := db.refreshTokens.filter (fun rt => !(rt.userId == id)) }) := by
    unfold banUser
    rw [hfind]
  have hfound : findOneById (banUser db id).2 id = some (bannedUser u) := by
    rw [hban]
    exact find?_map_update id _ hb db.users u hfind2
  refine ⟨by rw [hban], hfound, rfl, rfl, ?_, ?_, ?_⟩
  · intro rt hrt
    rw [hban] at hrt
    simp only [List.mem_filter] at hrt
    simpa using hrt.2
  · intro tok hsub hver
    unfold verifyAccessToken
    rw [hsub, hfound]
    have hne : ¬(tok.tokenVersion = (bannedUser u).tokenVersion) := by
      simp only [hver, bannedUser]
      omega
    simp [hne]
  · intro rt hrt
    unfold refreshLookup
    rw [hban]
    have hnm : rt ∉ (db.refreshTokens.filter (fun rt => !(rt.userId == id))) := by
      intro hmem
      simp only [List.mem_filter] at hmem
      simp [hrt] at hmem
    simp [hnm]

/-- Witness for C3: banning `u9` in a store where `u9` owns refresh token
`rt1` and another user owns `rt2`. -/
theorem banUser_bans_witness :
    (banUser dbBan "u9").1 = none ∧
    findOneById (banUser dbBan "u9").2 "u9" = some (bannedUser uBan) ∧
    (bannedUser uBan).status = UserStatus.Blocked ∧
    (bannedUser uBan).tokenVersion = 4 ∧
    verifyAccessToken (banUser dbBan "u9").2 ⟨"u9", "b@x.com", 3⟩ =
      .error .TokenVersionMismatch ∧
    refreshLookup (banUser dbBan "u9").2 ⟨"rt1", "u9"⟩ = .error .TokenRevoked :=
  ⟨(banUser_bans dbBan "u9" uBan rfl).1,
   (banUser_bans dbBan "u9" uBan rfl).2.1,
   (banUser_bans dbBan "u9" uBan rfl).2.2.1,
   (banUser_bans dbBan "u9" uBan rfl).2.2.2.1,
   (banUser_bans dbBan "u9" uBan rfl).2.2.2.2.2.1 ⟨"u9", "b@x.com", 3⟩ rfl rfl,
   (banUser_bans dbBan "u9" uBan rfl).2.2.2.2.2.2 ⟨"rt1", "u9"⟩ rfl⟩

/-- Claim C1, counterexample: `googleLogin` of an existing user whose
status is `Blocked` issues a signed token instead of denying with
`AccountInactive` — federated login has no status gate. -/
theorem googleLogin_blocked_counterexample :
    uBlockedG.status = UserStatus.Blocked ∧
    googleLogin dbBlockedG "u2" payloadBlocked =
      .ok (jwtSign "u1" "g@x.com", dbBlockedG) :=
  ⟨rfl, rfl⟩

/-- Claim C1 amended: password login (`AuthService.login`) issues a session
exactly when the user's status is `Active`, denying `Inactive`, `Blocked`
and `Deleted` with `AccountInactive`; federated login
(`AuthService.googleLogin`) of an existing user performs no status check
and issues a token whatever the status. -/
theorem login_gate_amended :
    (∀ u : User,
      (u.status = UserStatus.Active → login u = .ok (jwtSign u.id u.email)) ∧
      (u.status ≠ UserStatus.Active →
        login u = .error (.AccountInactive
          "Hesabınız aktif değil. Lütfen destekle iletişime geçin."))) ∧
    (∀ (db : Store) (newId : String) (payload : GooglePayload) (u : User),
      findByGoogleId db payload.sub = some u →
      googleLogin db newId payload = .ok (jwtSign u.id u.email, db)) := by
  constructor
  · intro u
    constructor
    · intro h
      simp [login, h]
    · intro h
      cases hs : u.status with
      | Active => exact absurd hs h
      | Inactive => simp [login, hs]
      | Blocked => simp [login, hs]
      | Deleted => simp [login, hs]
  · intro db newId payload u hfind
    simp [googleLogin, hfind]

/-- Witness for C1 amended: an `Active` user logs in; the blocked Google
user is issued a token by `googleLogin`. -/
theorem login_gate_amended_witness :
    login uActive = .ok (jwtSign "u7" "act@x.com") ∧
    googleLogin dbBlockedG "u2" payloadBlocked =
      .ok (jwtSign "u1" "g@x.com", dbBlockedG) :=
  ⟨(login_gate_amended.1 uActive).1 rfl,
   login_gate_amended.2 dbBlockedG "u2" payloadBlocked uBlockedG rfl⟩

/-- Claim C2, counterexample: with the password-credentialed user `uPw`
(email `a@x.com`) in the store, `googleLogin` with a fresh Google subject
carrying the same email silently creates a second account with that email
and issues a session — there is no `FederatedAccountConflict` (no such
error exists in the code) and no explicit link. -/
theorem googleLogin_conflict_counterexample :
    findByGoogleId dbPw "g9" = none ∧
    truthy uPw.password = true ∧
    uPw.email = "a@x.com" ∧
    (googleUserOf "u4" payloadConflict).email = "a@x.com" ∧
    googleLogin dbPw "u4" payloadConflict =
      .ok (jwtSign "u4" "a@x.com",
        { users := [uPw, googleUserOf "u4" payloadConflict], refreshTokens := [] }) :=
  ⟨rfl, rfl, rfl, rfl, rfl⟩

/-- Claim C2 amended: when the external subject has no local user,
`googleLogin` unconditionally creates a new federated-only user (null
password, `googleId` set) from the profile and issues a session — even when
a password-credentialed user with the same email already exists; no
conflict error is raised and the existing rows are left as they were, so a
duplicate-email account results. -/
theorem googleLogin_creates_amended (db : Store) (newId : String)
    (payload : GooglePayload) (h : findByGoogleId db payload.sub = none) :
    googleLogin db newId payload =
      .ok (jwtSign newId payload.email,
        { db with users := db.users ++ [googleUserOf newId payload] }) ∧
    (googleUserOf newId payload).password = none ∧
    (googleUserOf newId payload).googleId = some payload.sub := by
  refine ⟨?_, rfl, rfl⟩
  simp [googleLogin, h, googleUserOf, jwtSign]

/-- Witness for C2 amended, at the conflicting store. -/
theorem googleLogin_creates_amended_witness :
    googleLogin dbPw "u4" payloadConflict =
      .ok (jwtSign "u4" "a@x.com",
        { dbPw with users := dbPw.users ++ [googleUserOf "u4" payloadConflict] }) ∧
    (googleUserOf "u4" payloadConflict).password = none ∧
    (googleUserOf "u4" payloadConflict).googleId = some "g9" :=
  googleLogin_creates_amended dbPw "u4" payloadConflict rfl

/-- Claim C4, counterexample: password-login failures are not surfaced as a
single uniform error — an unknown email surfaces
`NotFound('User not found')` while a wrong password surfaces
`BadRequest('Wrong email or password')`, two observably different
errors. -/
theorem signin_errors_counterexample :
    signin toyKdf dbPw "a@x.com" "wrong" =
      .error (.BadRequest "Wrong email or password") ∧
    signin toyKdf dbEmpty "a@x.com" "pw1" =
      .error (.NotFound "User not found") ∧
    AuthError.BadRequest "Wrong email or password" ≠
      AuthError.NotFound "User not found" :=
  ⟨rfl, rfl, by decide⟩

/-- Claim C4 amended: `AuthService.signin` failures are not uniform.  An
unknown email surfaces `NotFound('User not found')`; a falsy stored
password with a truthy `googleId` surfaces
`Forbidden('Please use Google to login')`; a `null` stored password
otherwise crashes; every remaining failure — wrong password or malformed
stored value (for instance one missing the `'.'` separator) — surfaces the
same `BadRequest('Wrong email or password')`.  Only wrong password and
malformed hash are indistinguishable; unknown email is observably
distinct. -/
theorem signin_errors_amended (scrypt : String → String → String) (db : Store)
    (email password : String) :
    (findByEmail db email = none →
      signin scrypt db email password = .error (.NotFound "User not found")) ∧
    (∀ u : User, findByEmail db email = some u →
      truthy u.password = false → truthy u.googleId = true →
      signin scrypt db email password =
        .error (.Forbidden "Please use Google to login")) ∧
    (∀ u : User, findByEmail db email = some u →
      u.password = none → truthy u.googleId = false →
      signin scrypt db email password = .crash) ∧
    (∀ (u : User) (stored : String), findByEmail db email = some u →
      u.password = some stored →
      (!(truthy u.password) && truthy u.googleId) = false →
      checkStored scrypt stored password = false →
      signin scrypt db email password =
        .error (.BadRequest "Wrong email or password")) := by
  refine ⟨?_, ?_, ?_, ?_⟩
  · intro h
    simp [signin, h]
  · intro u hfind hp hg
    simp [signin, hfind, hp, hg]
  · intro u hfind hpw hg
    simp [signin, hfind, hpw, truthy_none, hg]
  · intro u stored hfind hpw hguard hchk
    cases hg : truthy u.googleId with
    | false => simp [signin, hfind, hpw, hg, hchk]
    | true =>
      have hp : truthy (some stored) = true := by
        rw [hpw, hg] at hguard
        cases hp2 : truthy (some stored) with
        | true => rfl
        | false => rw [hp2] at hguard; simp at hguard
      simp [signin, hfind, hpw, hp, hg, hchk]

/-- Witness for C4 amended: all four failure shapes at concrete stores. -/
theorem signin_errors_amended_witness :
    signin toyKdf dbEmpty "a@x.com" "pw1" = .error (.NotFound "User not found") ∧
    signin toyKdf dbBlockedG "g@x.com" "pw" =
      .error (.Forbidden "Please use Google to login") ∧
    signin toyKdf dbNoCred "n@x.com" "pw" = .crash ∧
    signin toyKdf dbPw "a@x.com" "wrong" =
      .error (.BadRequest "Wrong email or password") :=
  ⟨(signin_errors_amended toyKdf dbEmpty "a@x.com" "pw1").1 rfl,
   (signin_errors_amended toyKdf dbBlockedG "g@x.com" "pw").2.1 uBlockedG rfl rfl rfl,
   (signin_errors_amended toyKdf dbNoCred "n@x.com" "pw").2.2.1 uNoCred rfl rfl rfl,
   (signin_errors_amended toyKdf dbPw "a@x.com" "wrong").2.2.2 uPw
     (hashPassword toyKdf [1, 2, 3, 4, 5, 6, 7, 8] "pw1") rfl rfl (by decide) (by decide)⟩

/-- Claim C5: registering with password `P` and then password-login with
`P` authenticates (round trip), and login with `Q ≠ P` fails verification
whenever the key the KDF derives for `Q` differs from the one derived for
`P` — the formal content of "with overwhelming probability" for the
external `scrypt`, which is modelled as an arbitrary function with
dot-free (hex) output. -/
theorem signup_signin_roundtrip (scrypt : String → String → String)
    (hdot : ∀ p s : String, ∀ c ∈ (scrypt p s).data, c ≠ '.')
    (db : Store) (newId : String) (saltBytes : List Nat) (email P Q : String)
    (hfree : findByEmail db email = none) :
    signup scrypt db newId saltBytes email P =
      .ok (jwtSign newId email,
        { db with users := db.users ++
            [signupUser newId email (hashPassword scrypt saltBytes P)] }) ∧
    signin scrypt
      { db with users := db.users ++
          [signupUser newId email (hashPassword scrypt saltBytes P)] }
      email P = .ok (jwtSign newId email) ∧
    (Q ≠ P → scrypt Q (bytesToHex saltBytes) ≠ scrypt P (bytesToHex saltBytes) →
      signin scrypt
        { db with users := db.users ++
            [signupUser newId email (hashPassword scrypt saltBytes P)] }
        email Q = .error (.BadRequest "Wrong email or password")) := by
  have hfree2 : List.find? (fun u : User => u.email == email) db.users = none := hfree
  have hfind1 : findByEmail
      { db with users := db.users ++
          [signupUser newId email (hashPassword scrypt saltBytes P)] } email =
      some (signupUser newId email (hashPassword scrypt saltBytes P)) := by
    unfold findByEmail
    rw [find?_append_of_none (fun u : User => u.email == email) _ hfree2]
    simp [List.find?, signupUser]
  refine ⟨?_, ?_, ?_⟩
  · simp [signup, hfree, signupUser]
  · unfold signin
    rw [hfind1]
    simp [signupUser, truthy_none, Bool.and_false,
      checkStored_of_match scrypt saltBytes P hdot]
  · intro _ hcoll
    unfold signin
    rw [hfind1]
    simp [signupUser, truthy_none, Bool.and_false,
      checkStored_of_mismatch scrypt saltBytes P Q hdot hcoll]

/-- Witness for C5: concrete round trip with the toy KDF, salt bytes
`[1..8]`, password `pw1` and wrong password `wrong`. -/
theorem signup_signin_roundtrip_witness :
    signin toyKdf
      { dbEmpty with users := dbEmpty.users ++
          [signupUser "u1" "w@x.com" (hashPassword toyKdf [1, 2, 3, 4, 5, 6, 7, 8] "pw1")] }
      "w@x.com" "pw1" = .ok (jwtSign "u1" "w@x.com") ∧
    signin toyKdf
      { dbEmpty with users := dbEmpty.users ++
          [signupUser "u1" "w@x.com" (hashPassword toyKdf [1, 2, 3, 4, 5, 6, 7, 8] "pw1")] }
      "w@x.com" "wrong" = .error (.BadRequest "Wrong email or password") :=
  ⟨(signup_signin_roundtrip toyKdf
      (fun p s => bytesToHex_dotFree ((p ++ s).data.map Char.toNat))
      dbEmpty "u1" [1, 2, 3, 4, 5, 6, 7, 8] "w@x.com" "pw1" "wrong" rfl).2.1,
   (signup_signin_roundtrip toyKdf
      (fun p s => bytesToHex_dotFree ((p ++ s).data.map Char.toNat))
      dbEmpty "u1" [1, 2, 3, 4, 5, 6, 7, 8] "w@x.com" "pw1" "wrong" rfl).2.2
     (by decide) (by decide)⟩

/-- Claim C6 (code bug): at a user row whose `password` column is `null`
and whose `googleId` is also `null`, both `signin` and `verifyUser` reach
`user.password.split('.')` with `null` and crash with a JavaScript
`TypeError` instead of reporting a verification failure. -/
theorem verification_crashes_on_null :
    signin toyKdf dbNoCred "n@x.com" "pw" = .crash ∧
    verifyUser toyKdf dbNoCred "n@x.com" "pw" = .crash :=
  ⟨rfl, rfl⟩

/-- Claim C7: a record with a federated id set (truthy `googleId`) and a
null password hash rejects every password-based login attempt, and the
rejection is distinct from the wrong-password `InvalidCredentials` error:
`signin` throws `Forbidden('Please use Google to login')` and `verifyUser`
(whose created federated rows carry `provider = 'google'`) throws an
`UnprocessableEntityException` — neither equal to
`BadRequest('Wrong email or password')`. -/
theorem federated_only_rejects_password_login
    (scrypt : String → String → String) (db : Store) (email password : String)
    (u : User) (hfind : findByEmail db email = some u)
    (hpw : u.password = none) (hgid : truthy u.googleId = true) :
    signin scrypt db email password =
      .error (.Forbidden "Please use Google to login") ∧
    (u.provider = some "google" →
      verifyUser scrypt db email password = .error (.UnprocessableEntity
        "Bu mail adresiyle daha önce farklı bir yöntemle kaydolmuşsunuz.")) ∧
    AuthError.Forbidden "Please use Google to login" ≠
      AuthError.BadRequest "Wrong email or password" ∧
    AuthError.UnprocessableEntity
        "Bu mail adresiyle daha önce farklı bir yöntemle kaydolmuşsunuz." ≠
      AuthError.BadRequest "Wrong email or password" := by
  refine ⟨?_, ?_, by simp, by simp⟩
  · simp [signin, hfind, hpw, truthy_none, hgid]
  · intro hprov
    simp [verifyUser, hfind, hprov]

/-- Witness for C7 at the federated-only user `uBlockedG`. -/
theorem federated_only_rejects_witness :
    signin toyKdf dbBlockedG "g@x.com" "pw" =
      .error (.Forbidden "Please use Google to login") ∧
    verifyUser toyKdf dbBlockedG "g@x.com" "pw" =
      .error (.UnprocessableEntity
        "Bu mail adresiyle daha önce farklı bir yöntemle kaydolmuşsunuz.") :=
  ⟨(federated_only_rejects_password_login toyKdf dbBlockedG "g@x.com" "pw"
      uBlockedG rfl rfl rfl).1,
   (federated_only_rejects_password_login toyKdf dbBlockedG "g@x.com" "pw"
      uBlockedG rfl rfl rfl).2.1 rfl⟩

/-- Claim C8: hashing uses the 8 fresh random bytes (at least 8 bytes of
salt; 16 hex characters) as the salt, derives the key from the password and
that salt, and returns a stored value of the exact shape
`salt ++ "." ++ hex(derivedKey)`; hashing the same password with two
distinct fresh salts yields different stored values. -/
theorem hash_shape_and_freshness (scrypt : String → String → String)
    (hdot : ∀ p s : String, ∀ c ∈ (scrypt p s).data, c ≠ '.')
    (b1 b2 : List Nat) (P : String)
    (h1len : b1.length = 8) (h1v : ∀ b ∈ b1, b < 256)
    (h2len : b2.length = 8) (h2v : ∀ b ∈ b2, b < 256)
    (hne : b1 ≠ b2) :
    hashPassword scrypt b1 P =
      bytesToHex b1 ++ "." ++ scrypt P (bytesToHex b1) ∧
    (bytesToHex b1).length = 16 ∧
    hashPassword scrypt b1 P ≠ hashPassword scrypt b2 P := by
  refine ⟨rfl, by rw [bytesToHex_length, h1len], ?_⟩
  intro heq
  have hsplit1 : jsSplitDot (hashPassword scrypt b1 P) =
      [bytesToHex b1, scrypt P (bytesToHex b1)] :=
    jsSplitDot_salt_hash _ _ (bytesToHex_dotFree b1) (hdot P _)
  have hsplit2 : jsSplitDot (hashPassword scrypt b2 P) =
      [bytesToHex b2, scrypt P (bytesToHex b2)] :=
    jsSplitDot_salt_hash _ _ (bytesToHex_dotFree b2) (hdot P _)
  have hlists : [bytesToHex b1, scrypt P (bytesToHex b1)] =
      [bytesToHex b2, scrypt P (bytesToHex b2)] := by
    rw [← hsplit1, ← hsplit2, heq]
  have hsalt : bytesToHex b1 = bytesToHex b2 := by
    injection hlists
  exact hne (bytesToHex_inj b1 b2 (by rw [h1len, h2len]) h1v h2v hsalt)

/-- Witness for C8 at two concrete salts differing in the last byte. -/
theorem hash_shape_and_freshness_witness :
    hashPassword toyKdf [0, 0, 0, 0, 0, 0, 0, 1] "pw" =
      bytesToHex [0, 0, 0, 0, 0, 0, 0, 1] ++ "." ++
        toyKdf "pw" (bytesToHex [0, 0, 0, 0, 0, 0, 0, 1]) ∧
    (bytesToHex [0, 0, 0, 0, 0, 0, 0, 1]).length = 16 ∧
    hashPassword toyKdf [0, 0, 0, 0, 0, 0, 0, 1] "pw" ≠
      hashPassword toyKdf [0, 0, 0, 0, 0, 0, 0, 2] "pw" :=
  hash_shape_and_freshness toyKdf
    (fun p s => bytesToHex_dotFree ((p ++ s).data.map Char.toNat))
    [0, 0, 0, 0, 0, 0, 0, 1] [0, 0, 0, 0, 0, 0, 0, 2] "pw"
    (by decide) (by decide) (by decide) (by decide) (by decide)

end NestAuth
